import Mathlib

/-!
Verification of the STRAY-SAFE bite-risk scoring engine
(src/pages/ai_detection.py) and the JSON document store
(src/utils/storage.py), shallowly embedded in Lean 4.

Questionnaire responses are Python dicts mapping question-key strings to
selected option strings; we embed them as association lists
(List (String × String)).  Python integers are embedded as Int.
-/

namespace StraySafe

/-- The score_map dict literal of calculate_bite_risk_score
(src/pages/ai_detection.py lines 193-214): for each of the 10 question keys,
an inner dict from option string to integer weight, embedded as an
association list of association lists. -/
def scoreMap : List (String × List (String × Int)) :=
  [("aggression",
    [("Friendly/Calm", 0), ("Neutral/Cautious", 5), ("Defensive", 10),
     ("Aggressive/Growling", 20), ("Attacking/Lunging", 30)]),
   ("body_language",
    [("Relaxed (wagging tail, soft ears)", 0), ("Alert (ears up, attentive)", 5),
     ("Tense (stiff body, raised hackles)", 15), ("Cowering/Fearful", 10),
     ("Showing teeth/Snarling", 25)]),
   ("eye_contact",
    [("Soft/Avoidant", 0), ("Normal", 3), ("Direct stare", 10),
     ("Fixed stare with tension", 20)]),
   ("territorial",
    [("Not territorial", 0), ("Mild (barking)", 5), ("Moderate (blocking path)", 10),
     ("Highly territorial (charging)", 20)]),
   ("past_behavior",
    [("Never aggressive", 0), ("Rare incidents", 10), ("Multiple incidents", 20),
     ("Frequent attacks", 30)]),
   ("approach",
    [("Friendly approach", 0), ("Cautious but friendly", 3), ("Avoidant/Backing away", 8),
     ("Warning signs (barking/growling)", 15), ("Charging/Lunging", 25)]),
   ("food_guarding",
    [("No guarding", 0), ("Mild (tense when eating)", 5), ("Moderate (growls near food)", 12),
     ("Severe (snaps/bites near food)", 20)]),
   ("space",
    [("Comfortable with proximity", 0), ("Prefers distance", 3),
     ("Shows discomfort when approached", 10), ("Actively defends space", 18)]),
   ("health",
    [("Appears healthy", 0), ("Minor issues (limping)", 5), ("Visible injuries", 10),
     ("Signs of rabies/severe illness", 25)]),
   ("pack",
    [("Alone", 5), ("With one other dog", 3), ("In small pack (2-3)", 8),
     ("Large pack (4+)", 15)])]

/-- score_map.get(key, \x7b\x7d): the weight table of one question, empty for
a key outside score_map. -/
def questionTable (key : String) : List (String × Int) :=
  (scoreMap.lookup key).getD []

/-- The 10 question keys of score_map. -/
def scoreKeys : List String :=
  scoreMap.map Prod.fst

/-- Weight of one (question, option) pair:
score_map.get(key, \x7b\x7d).get(value, 0) in the source — a missing question
key or a missing option string contributes 0. -/
def scoreWeight (key value : String) : Int :=
  ((questionTable key).lookup value).getD 0

/-- Risk-level bucketing of the total score
(src/pages/ai_detection.py lines 217-225). -/
def riskLevel (totalScore : Int) : String :=
  if totalScore ≤ 20 then "Low Risk"
  else if totalScore ≤ 50 then "Moderate Risk"
  else if totalScore ≤ 80 then "High Risk"
  else "Critical Risk"

/-- calculate_bite_risk_score: sums the weight of every (key, value) entry of
the responses dict and buckets the total (src/pages/ai_detection.py lines
190-227).  Returns the pair (total_score, risk_level). -/
def calculate_bite_risk_score (responses : List (String × String)) : Int × String :=
  let total_score := (responses.map (fun p => scoreWeight p.1 p.2)).sum
  (total_score, riskLevel total_score)

/-- Trigger of the aggression rule: responses.get("aggression") in
["Aggressive/Growling", "Attacking/Lunging"]. -/
def aggressionTriggered (responses : List (String × String)) : Prop :=
  responses.lookup "aggression" ∈
    [some "Aggressive/Growling", some "Attacking/Lunging"]

/-- Trigger of the territorial rule. -/
def territorialTriggered (responses : List (String × String)) : Prop :=
  responses.lookup "territorial" ∈
    [some "Moderate (blocking path)", some "Highly territorial (charging)"]

/-- Trigger of the approach rule. -/
def approachTriggered (responses : List (String × String)) : Prop :=
  responses.lookup "approach" ∈
    [some "Warning signs (barking/growling)", some "Charging/Lunging"]

/-- Trigger of the health (rabies-warning) rule: an equality check, not a
membership check, in the source. -/
def healthTriggered (responses : List (String × String)) : Prop :=
  responses.lookup "health" = some "Signs of rabies/severe illness"

/-- Trigger of the pack rule. -/
def packTriggered (responses : List (String × String)) : Prop :=
  responses.lookup "pack" ∈
    [some "In small pack (2-3)", some "Large pack (4+)"]

/-- Trigger of the food-guarding rule. -/
def foodGuardingTriggered (responses : List (String × String)) : Prop :=
  responses.lookup "food_guarding" ∈
    [some "Moderate (growls near food)", some "Severe (snaps/bites near food)"]

instance (r : List (String × String)) : Decidable (aggressionTriggered r) := by
  unfold aggressionTriggered; infer_instance

instance (r : List (String × String)) : Decidable (territorialTriggered r) := by
  unfold territorialTriggered; infer_instance

instance (r : List (String × String)) : Decidable (approachTriggered r) := by
  unfold approachTriggered; infer_instance

instance (r : List (String × String)) : Decidable (healthTriggered r) := by
  unfold healthTriggered; infer_instance

instance (r : List (String × String)) : Decidable (packTriggered r) := by
  unfold packTriggered; infer_instance

instance (r : List (String × String)) : Decidable (foodGuardingTriggered r) := by
  unfold foodGuardingTriggered; infer_instance

/-- Advisory string of the aggression rule. -/
def advAggression : String := "🚨 Maintain safe distance - Do not approach"

/-- Advisory string of the territorial rule. -/
def advTerritorial : String := "🚶 Avoid entering the dog\x27s territory - Choose alternate route"

/-- Advisory string of the approach rule. -/
def advApproach : String := "⛔ Do not attempt to pet or interact"

/-- Advisory string of the health rule. -/
def advHealth : String := "⚠️ RABIES RISK - Contact health department immediately"

/-- Advisory string of the pack rule. -/
def advPack : String := "👥 Pack behavior increases unpredictability - Extra caution needed"

/-- Advisory string of the food-guarding rule. -/
def advFoodGuarding : String := "🍖 Never approach when dog is eating or near food"

/-- generate_safety_recommendations (src/pages/ai_detection.py lines 230-252):
six independent trigger rules checked in a fixed order, each appending one
canned advisory string when its trigger option was selected. -/
def generate_safety_recommendations (responses : List (String × String)) : List String :=
  (if aggressionTriggered responses then [advAggression] else []) ++
  (if territorialTriggered responses then [advTerritorial] else []) ++
  (if approachTriggered responses then [advApproach] else []) ++
  (if healthTriggered responses then [advHealth] else []) ++
  (if packTriggered responses then [advPack] else []) ++
  (if foodGuardingTriggered responses then [advFoodGuarding] else [])

/-- The six advisory strings in rule-evaluation order. -/
def advisoriesInOrder : List String :=
  [advAggression, advTerritorial, advApproach, advHealth, advPack, advFoodGuarding]

/-!  Document store model (src/utils/storage.py). -/

/-- Python values that can flow through the store: JSON-native values as
python json.load produces them (null, bool, int, str, list, dict with string
keys).  Floats are not needed by any claim and are omitted. -/
inductive PyVal where
  | pynone : PyVal
  | pybool (b : Bool) : PyVal
  | pyint (n : Int) : PyVal
  | pystr (s : String) : PyVal
  | pylist (xs : List PyVal) : PyVal
  | pydict (xs : List (String × PyVal)) : PyVal

/-- Shape test: is the value a Python list. -/
def PyVal.isList : PyVal → Bool
  | .pylist _ => true
  | _ => false

/-- Shape test: is the value Python None. -/
def PyVal.isNone : PyVal → Bool
  | .pynone => true
  | _ => false

/-- Shape test: is the value a Python dict. -/
def PyVal.isDict : PyVal → Bool
  | .pydict _ => true
  | _ => false

/-- isinstance(data, type(default)) for the embedded value classes.  Python
bool is a subclass of int, so a bool instance passes an int class check. -/
def sameClass (data default : PyVal) : Bool :=
  match default with
  | .pynone => data.isNone
  | .pybool _ => (match data with | .pybool _ => true | _ => false)
  | .pyint _ => (match data with | .pybool _ => true | .pyint _ => true | _ => false)
  | .pystr _ => (match data with | .pystr _ => true | _ => false)
  | .pylist _ => data.isList
  | .pydict _ => data.isDict

/-- State of one collection's backing file: the file may be absent, present
with content that json.load rejects, or present and parsed to a value. -/
inductive FileState where
  | missing : FileState
  | invalid : FileState
  | parsed (v : PyVal) : FileState

/-- The filesystem visible to the store: each key's file state. -/
def Store : Type := String → FileState

/-- read(key, default) from src/utils/storage.py lines 7-19: if the file
exists and parses, a None default expects a list (non-lists fall back to []),
and a non-None default is returned whenever the parsed value fails the
isinstance check against the default's type; a missing file or a json.load
failure falls back to the default (or [] when the default is None). -/
def read (store : Store) (key : String) (default : PyVal) : PyVal :=
  match store key with
  | .missing => if default.isNone then .pylist [] else default
  | .invalid => if default.isNone then .pylist [] else default
  | .parsed data =>
      if default.isNone then (if data.isList then data else .pylist [])
      else if sameClass data default then data else default

/-- write(key, data) from src/utils/storage.py lines 21-24: overwrite the
key's backing file with the JSON serialization of data.  Every PyVal is
JSON-native, and for JSON-native values json.load after json.dump rebuilds
an equal value, so the new file state is modeled as parsed data. -/
def write (store : Store) (key : String) (data : PyVal) : Store :=
  fun k => if k = key then .parsed data else store k

/-- Rank of a risk level in the ordered bucket scale; used to state that the
bucketing never ranks a higher score below a lower one. -/
def levelRank (level : String) : Nat :=
  if level = "Low Risk" then 0
  else if level = "Moderate Risk" then 1
  else if level = "High Risk" then 2
  else 3

/-- Largest weight of each question's table (0 for keys outside score_map). -/
def maxTable : List (String × Int) :=
  [("aggression", 30), ("body_language", 25), ("eye_contact", 20), ("territorial", 20),
   ("past_behavior", 30), ("approach", 25), ("food_guarding", 20), ("space", 18),
   ("health", 25), ("pack", 15)]

/-- Largest weight of one question (0 for keys outside score_map). -/
def maxWeight (key : String) : Int :=
  (maxTable.lookup key).getD 0

/-- The response set selecting, for each of the 10 questions, the enumerated
option of smallest weight (for the pack question that minimum is
"With one other dog" with weight 3 — no pack option has weight 0). -/
def lowestResponses : List (String × String) :=
  [("aggression", "Friendly/Calm"), ("body_language", "Relaxed (wagging tail, soft ears)"),
   ("eye_contact", "Soft/Avoidant"), ("territorial", "Not territorial"),
   ("past_behavior", "Never aggressive"), ("approach", "Friendly approach"),
   ("food_guarding", "No guarding"), ("space", "Comfortable with proximity"),
   ("health", "Appears healthy"), ("pack", "With one other dog")]

/-- The end-to-end scenario response set of the spec's testable property 9. -/
def endToEndResponses : List (String × String) :=
  [("aggression", "Attacking/Lunging"), ("body_language", "Showing teeth/Snarling"),
   ("eye_contact", "Fixed stare with tension"), ("territorial", "Highly territorial (charging)"),
   ("past_behavior", "Frequent attacks"), ("approach", "Charging/Lunging"),
   ("food_guarding", "Severe (snaps/bites near food)"), ("space", "Actively defends space"),
   ("health", "Appears healthy"), ("pack", "Alone")]

/-!  Helper lemmas about association-list lookup and the weight tables. -/

theorem lookup_getD_nonneg (l : List (String × Int)) (v : String)
    (h : ∀ p ∈ l, 0 ≤ p.2) : 0 ≤ (l.lookup v).getD 0 := by
  induction l with
  | nil => simp [List.lookup]
  | cons hd tl ih =>
      obtain ⟨k, w⟩ := hd
      by_cases hv : v == k
      · simp [List.lookup, hv]
        exact h (k, w) (by simp)
      · simp only [List.lookup, hv]
        exact ih (fun p hp => h p (List.mem_cons_of_mem (k, w) hp))

theorem lookup_getD_le (l : List (String × Int)) (v : String) (c : Int)
    (hc : 0 ≤ c) (h : ∀ p ∈ l, p.2 ≤ c) : (l.lookup v).getD 0 ≤ c := by
  induction l with
  | nil => simpa [List.lookup] using hc
  | cons hd tl ih =>
      obtain ⟨k, w⟩ := hd
      by_cases hv : v == k
      · simp [List.lookup, hv]
        exact h (k, w) (by simp)
      · simp only [List.lookup, hv]
        exact ih (fun p hp => h p (List.mem_cons_of_mem (k, w) hp))

theorem lookup_mem {β : Type} (l : List (String × β)) (v : String) (b : β)
    (h : l.lookup v = some b) : (v, b) ∈ l := by
  induction l with
  | nil => simp [List.lookup] at h
  | cons hd tl ih =>
      obtain ⟨k, w⟩ := hd
      by_cases hv : v == k
      · simp only [List.lookup, hv] at h
        obtain rfl : w = b := by injection h
        have : v = k := by simpa using hv
        simp [this]
      · simp only [List.lookup, hv] at h
        exact List.mem_cons_of_mem (k, w) (ih h)

theorem lookup_eq_none_of_not_mem {β : Type} (l : List (String × β)) (v : String)
    (h : v ∉ l.map Prod.fst) : l.lookup v = none := by
  induction l with
  | nil => simp [List.lookup]
  | cons hd tl ih =>
      obtain ⟨k, w⟩ := hd
      have hvk : ¬ (v == k) = true := by
        intro hb
        exact h (by simp [show v = k from by simpa using hb])
      simp only [List.lookup, Bool.not_eq_true] at hvk ⊢
      rw [hvk]
      exact ih (fun hm => h (List.mem_cons_of_mem k hm))

theorem questionTable_nil_of_not_mem (key : String) (h : key ∉ scoreKeys) :
    questionTable key = [] := by
  unfold questionTable
  rw [lookup_eq_none_of_not_mem scoreMap key h]
  rfl

theorem scoreMap_entries_bounded :
    ∀ q ∈ scoreMap, ∀ p ∈ q.2, 0 ≤ p.2 ∧ p.2 ≤ maxWeight q.1 := by decide

theorem maxWeight_nonneg (key : String) : 0 ≤ maxWeight key := by
  apply lookup_getD_nonneg
  decide

theorem maxWeight_le_30 (key : String) : maxWeight key ≤ 30 := by
  apply lookup_getD_le _ _ _ (by decide)
  decide

theorem maxWeight_eq_zero_of_not_mem (key : String) (h : key ∉ scoreKeys) :
    maxWeight key = 0 := by
  unfold maxWeight
  have hk : key ∉ maxTable.map Prod.fst := by
    intro hm
    exact h (by simpa [scoreKeys, scoreMap, maxTable] using hm)
  rw [lookup_eq_none_of_not_mem maxTable key hk]
  rfl

theorem scoreWeight_nonneg (key value : String) : 0 ≤ scoreWeight key value := by
  unfold scoreWeight questionTable
  cases hq : scoreMap.lookup key with
  | none => simp [List.lookup]
  | some tbl =>
      simp only [Option.getD_some]
      exact lookup_getD_nonneg tbl value
        (fun p hp => (scoreMap_entries_bounded (key, tbl) (lookup_mem _ _ _ hq) p hp).1)

theorem scoreWeight_le_maxWeight (key value : String) :
    scoreWeight key value ≤ maxWeight key := by
  unfold scoreWeight questionTable
  cases hq : scoreMap.lookup key with
  | none =>
      simp only [Option.getD_none]
      simpa [List.lookup] using maxWeight_nonneg key
  | some tbl =>
      simp only [Option.getD_some]
      exact lookup_getD_le tbl value (maxWeight key) (maxWeight_nonneg key)
        (fun p hp => (scoreMap_entries_bounded (key, tbl) (lookup_mem _ _ _ hq) p hp).2)

theorem sum_maxWeight_le_228 (ks : List String) (h : ks.Nodup) :
    (ks.map maxWeight).sum ≤ 228 := by
  have hfin : (ks.map maxWeight).sum = ks.toFinset.sum maxWeight :=
    (List.sum_toFinset maxWeight h).symm
  have hzero : (ks.toFinset.filter (fun k => ¬ k ∈ scoreKeys)).sum maxWeight = 0 :=
    Finset.sum_eq_zero
      (fun k hk => maxWeight_eq_zero_of_not_mem k (Finset.mem_filter.1 hk).2)
  have hsub : ks.toFinset.filter (fun k => k ∈ scoreKeys) ⊆ scoreKeys.toFinset :=
    fun k hk => List.mem_toFinset.2 (Finset.mem_filter.1 hk).2
  have hle : (ks.toFinset.filter (fun k => k ∈ scoreKeys)).sum maxWeight ≤
      scoreKeys.toFinset.sum maxWeight :=
    Finset.sum_le_sum_of_subset_of_nonneg hsub (fun k _ _ => maxWeight_nonneg k)
  have htot : scoreKeys.toFinset.sum maxWeight = 228 := by
    rw [List.sum_toFinset maxWeight (by decide)]
    decide
  calc (ks.map maxWeight).sum
      = (ks.toFinset.filter (fun k => k ∈ scoreKeys)).sum maxWeight
        + (ks.toFinset.filter (fun k => ¬ k ∈ scoreKeys)).sum maxWeight := by
        rw [hfin, Finset.sum_filter_add_sum_filter_not]
    _ ≤ 228 := by rw [hzero, add_zero, ← htot]; exact hle

theorem calc_fst (r : List (String × String)) :
    (calculate_bite_risk_score r).1 = (r.map (fun p => scoreWeight p.1 p.2)).sum := rfl

theorem calc_snd (r : List (String × String)) :
    (calculate_bite_risk_score r).2 = riskLevel (calculate_bite_risk_score r).1 := rfl

theorem riskLevel_iff (s : Int) :
    (s ≤ 20 ↔ riskLevel s = "Low Risk") ∧
    (20 < s ∧ s ≤ 50 ↔ riskLevel s = "Moderate Risk") ∧
    (50 < s ∧ s ≤ 80 ↔ riskLevel s = "High Risk") ∧
    (80 < s ↔ riskLevel s = "Critical Risk") := by
  unfold riskLevel
  split_ifs with h1 h2 h3 <;> refine ⟨?_, ?_, ?_, ?_⟩ <;> simp_all <;> omega

theorem levelRank_riskLevel (s : Int) :
    levelRank (riskLevel s) =
      if s ≤ 20 then 0 else if s ≤ 50 then 1 else if s ≤ 80 then 2 else 3 := by
  unfold riskLevel
  split_ifs with h1 h2 h3 <;> simp [levelRank]

/-- C1: calculate_bite_risk_score buckets the total score into exactly one of
four levels with inclusive upper bounds — at most 20 is "Low Risk", (20, 50]
is "Moderate Risk", (50, 80] is "High Risk", above 80 is "Critical Risk" —
and in particular the boundary totals 20, 21, 50, 51, 80 and 81 land in
"Low", "Moderate", "Moderate", "High", "High" and "Critical" respectively. -/
theorem calculate_score_buckets (r : List (String × String)) :
    ((calculate_bite_risk_score r).1 ≤ 20 ↔ (calculate_bite_risk_score r).2 = "Low Risk") ∧
    (20 < (calculate_bite_risk_score r).1 ∧ (calculate_bite_risk_score r).1 ≤ 50 ↔
      (calculate_bite_risk_score r).2 = "Moderate Risk") ∧
    (50 < (calculate_bite_risk_score r).1 ∧ (calculate_bite_risk_score r).1 ≤ 80 ↔
      (calculate_bite_risk_score r).2 = "High Risk") ∧
    (80 < (calculate_bite_risk_score r).1 ↔ (calculate_bite_risk_score r).2 = "Critical Risk") ∧
    (riskLevel 20 = "Low Risk" ∧ riskLevel 21 = "Moderate Risk" ∧
     riskLevel 50 = "Moderate Risk" ∧ riskLevel 51 = "High Risk" ∧
     riskLevel 80 = "High Risk" ∧ riskLevel 81 = "Critical Risk") := by
  rw [calc_snd r]
  obtain ⟨a, b, c, d⟩ := riskLevel_iff (calculate_bite_risk_score r).1
  exact ⟨a, b, c, d, by decide⟩

/-- C3: the score is the sum of the table weights of the response entries
(absent pairs contributing 0 through scoreWeight), it is never negative, and
the risk level is a monotone function of the score alone: a higher score
never produces a lower-ranked bucket. -/
theorem score_sum_nonneg_level_monotone (r : List (String × String)) :
    (calculate_bite_risk_score r).1 = (r.map (fun p => scoreWeight p.1 p.2)).sum ∧
    0 ≤ (calculate_bite_risk_score r).1 ∧
    (∀ s1 s2 : Int, s1 ≤ s2 → levelRank (riskLevel s1) ≤ levelRank (riskLevel s2)) := by
  refine ⟨rfl, ?_, ?_⟩
  · rw [calc_fst r]
    apply List.sum_nonneg
    intro x hx
    simp only [List.mem_map] at hx
    obtain ⟨p, _, rfl⟩ := hx
    exact scoreWeight_nonneg p.1 p.2
  · intro s1 s2 hs
    rw [levelRank_riskLevel, levelRank_riskLevel]
    split_ifs <;> omega

/-- Witness for C3 at a concrete response set and concrete score pair. -/
theorem score_sum_nonneg_level_monotone_witness :
    0 ≤ (calculate_bite_risk_score endToEndResponses).1 ∧
    levelRank (riskLevel 10) ≤ levelRank (riskLevel 100) :=
  ⟨(score_sum_nonneg_level_monotone endToEndResponses).2.1,
   (score_sum_nonneg_level_monotone endToEndResponses).2.2 10 100 (by decide)⟩

/-- C4: replacing one answer by a strictly higher-weighted option for the same
question never lowers the total score. -/
theorem score_monotone_in_single_answer (pre post : List (String × String))
    (q a1 a2 : String) (h : scoreWeight q a1 < scoreWeight q a2) :
    (calculate_bite_risk_score (pre ++ (q, a1) :: post)).1 ≤
      (calculate_bite_risk_score (pre ++ (q, a2) :: post)).1 := by
  rw [calc_fst, calc_fst]
  simp only [List.map_append, List.sum_append, List.map_cons, List.sum_cons]
  have h2 := le_of_lt h
  linarith

/-- Witness for C4: upgrading the aggression answer from "Friendly/Calm"
(weight 0) to "Defensive" (weight 10) does not lower the score. -/
theorem score_monotone_in_single_answer_witness :
    scoreWeight "aggression" "Friendly/Calm" < scoreWeight "aggression" "Defensive" ∧
    (calculate_bite_risk_score ([] ++ ("aggression", "Friendly/Calm") :: [])).1 ≤
      (calculate_bite_risk_score ([] ++ ("aggression", "Defensive") :: [])).1 :=
  ⟨by decide,
   score_monotone_in_single_answer [] [] "aggression" "Friendly/Calm" "Defensive" (by decide)⟩

/-- C6: generate_safety_recommendations returns the advisory strings of
exactly the rules whose trigger option was selected, in the fixed rule order
aggression, territorial, approach, health, pack, food-guarding (the result is
a sublist of the ordered advisory list), with no duplicates, and the empty
list when no rule fires.  Determinism is immediate: the embedding is a pure
function of the responses. -/
theorem recommendations_order_exact (r : List (String × String)) :
    (generate_safety_recommendations r).Sublist advisoriesInOrder ∧
    (generate_safety_recommendations r).Nodup ∧
    ((advAggression ∈ generate_safety_recommendations r ↔ aggressionTriggered r) ∧
     (advTerritorial ∈ generate_safety_recommendations r ↔ territorialTriggered r) ∧
     (advApproach ∈ generate_safety_recommendations r ↔ approachTriggered r) ∧
     (advHealth ∈ generate_safety_recommendations r ↔ healthTriggered r) ∧
     (advPack ∈ generate_safety_recommendations r ↔ packTriggered r) ∧
     (advFoodGuarding ∈ generate_safety_recommendations r ↔ foodGuardingTriggered r)) ∧
    (¬ aggressionTriggered r ∧ ¬ territorialTriggered r ∧ ¬ approachTriggered r ∧
       ¬ healthTriggered r ∧ ¬ packTriggered r ∧ ¬ foodGuardingTriggered r →
      generate_safety_recommendations r = []) := by
  by_cases h1 : aggressionTriggered r <;>
  by_cases h2 : territorialTriggered r <;>
  by_cases h3 : approachTriggered r <;>
  by_cases h4 : healthTriggered r <;>
  by_cases h5 : packTriggered r <;>
  by_cases h6 : foodGuardingTriggered r <;>
  simp only [generate_safety_recommendations, advisoriesInOrder,
    h1, h2, h3, h4, h5, h6, if_true, if_false, ite_true, ite_false,
    not_true, not_false_iff, List.append_nil, List.nil_append, List.append_assoc] <;>
  refine ⟨by decide, by decide, ⟨?_, ?_, ?_, ?_, ?_, ?_⟩, ?_⟩ <;>
  simp_all <;> decide

/-- Witness for C6: on the all-lowest-weight response set no rule fires and
the recommendation list is empty. -/
theorem recommendations_order_exact_witness :
    generate_safety_recommendations lowestResponses = [] :=
  (recommendations_order_exact lowestResponses).2.2.2 (by decide)

/-- C7 counterexample: on the response set that selects each question's
lowest-weighted enumerated option the total score is 3, not 0 (the pack
table's smallest weight is 3). -/
theorem lowest_scenario_score_not_zero :
    (calculate_bite_risk_score lowestResponses).1 = 3 ∧
    ¬ (calculate_bite_risk_score lowestResponses).1 = 0 := by decide

/-- C7 amended: the response set selecting each question's lowest-weighted
option (lowestResponses covers exactly the 10 score_map keys and picks a
minimum-weight option of each table) produces a score of 3, risk level
"Low Risk", and an empty recommendations list. -/
theorem lowest_weight_scenario :
    (lowestResponses.all (fun e =>
       (questionTable e.1).all (fun p => decide (scoreWeight e.1 e.2 ≤ p.2)))) = true ∧
    lowestResponses.map Prod.fst = scoreKeys ∧
    calculate_bite_risk_score lowestResponses = (3, "Low Risk") ∧
    generate_safety_recommendations lowestResponses = [] := by decide

/-- C8: the end-to-end scenario response set scores 193, is bucketed
"Critical Risk", and its recommendations are exactly the four advisories of
the aggression, territorial, approach and food-guarding rules, without the
health (rabies-warning) advisory. -/
theorem end_to_end_scenario :
    calculate_bite_risk_score endToEndResponses = (193, "Critical Risk") ∧
    generate_safety_recommendations endToEndResponses =
      [advAggression, advTerritorial, advApproach, advFoodGuarding] ∧
    advHealth ∉ generate_safety_recommendations endToEndResponses := by decide

/-- C2: the store read and the scoring engine are fail-soft — a list- or
dict-typed default is returned unchanged on a missing file, on invalid JSON,
and on a parsed value whose type differs from the default's type; and
scoreWeight gives 0 to every question key outside score_map and to every
option string absent from its question's table, so calculate_bite_risk_score
is total. -/
theorem read_and_score_fail_soft (default : PyVal)
    (hd : default.isList = true ∨ default.isDict = true) :
    (∀ (store : Store) (key : String), store key = FileState.missing →
       read store key default = default) ∧
    (∀ (store : Store) (key : String), store key = FileState.invalid →
       read store key default = default) ∧
    (∀ (store : Store) (key : String) (v : PyVal), store key = FileState.parsed v →
       sameClass v default = false → read store key default = default) ∧
    (∀ key value : String, key ∉ scoreKeys → scoreWeight key value = 0) ∧
    (∀ key value : String, (questionTable key).lookup value = Option.none →
       scoreWeight key value = 0) := by
  have hnone : default.isNone = false := by
    rcases hd with h | h <;>
      (cases default <;> simp_all [PyVal.isList, PyVal.isDict, PyVal.isNone])
  refine ⟨?_, ?_, ?_, ?_, ?_⟩
  · intro store key hk
    unfold read
    rw [hk]
    simp [hnone]
  · intro store key hk
    unfold read
    rw [hk]
    simp [hnone]
  · intro store key v hk hc
    unfold read
    rw [hk]
    simp [hnone, hc]
  · intro key value hkey
    unfold scoreWeight
    rw [questionTable_nil_of_not_mem key hkey]
    rfl
  · intro key value hv
    unfold scoreWeight
    rw [hv]
    rfl

/-- Witness for C2 at the empty-list default and an empty filesystem. -/
theorem read_and_score_fail_soft_witness :
    (PyVal.isList (PyVal.pylist []) = true ∨ PyVal.isDict (PyVal.pylist []) = true) ∧
    read (fun _ => FileState.missing) "cases" (PyVal.pylist []) = PyVal.pylist [] :=
  ⟨Or.inl rfl,
   (read_and_score_fail_soft (PyVal.pylist []) (Or.inl rfl)).1
     (fun _ => FileState.missing) "cases" rfl⟩

/-- C5: writing a list or dict value under a key and reading the key back
with a default of the same type returns the written value. -/
theorem store_round_trip (store : Store) (key : String) (d default : PyVal)
    (hd : d.isList = true ∨ d.isDict = true) (hdef : sameClass d default = true) :
    read (write store key d) key default = d := by
  have hnone : default.isNone = false := by
    rcases hd with h | h <;>
      (cases default <;> cases d <;>
        simp_all [sameClass, PyVal.isList, PyVal.isDict, PyVal.isNone])
  unfold read write
  simp [hnone, hdef]

/-- Witness for C5: a one-element list written under "cases" is read back. -/
theorem store_round_trip_witness :
    (PyVal.isList (PyVal.pylist [PyVal.pyint 1]) = true ∨
      PyVal.isDict (PyVal.pylist [PyVal.pyint 1]) = true) ∧
    sameClass (PyVal.pylist [PyVal.pyint 1]) (PyVal.pylist []) = true ∧
    read (write (fun _ => FileState.missing) "cases" (PyVal.pylist [PyVal.pyint 1]))
        "cases" (PyVal.pylist []) = PyVal.pylist [PyVal.pyint 1] :=
  ⟨Or.inl rfl, rfl,
   store_round_trip (fun _ => FileState.missing) "cases" _ _ (Or.inl rfl) rfl⟩

/-- C9: with default None (undocumented in the spec) read behaves as if the
expected type were list — it returns the empty list on a missing file or
invalid JSON, returns the parsed value only when it is a list, and returns
the empty list when the file parses to any non-list value such as a dict. -/
theorem read_none_default_expects_list :
    (∀ (store : Store) (key : String), store key = FileState.missing →
       read store key PyVal.pynone = PyVal.pylist []) ∧
    (∀ (store : Store) (key : String), store key = FileState.invalid →
       read store key PyVal.pynone = PyVal.pylist []) ∧
    (∀ (store : Store) (key : String) (xs : List PyVal),
       store key = FileState.parsed (PyVal.pylist xs) →
       read store key PyVal.pynone = PyVal.pylist xs) ∧
    (∀ (store : Store) (key : String) (v : PyVal), store key = FileState.parsed v →
       v.isList = false → read store key PyVal.pynone = PyVal.pylist []) := by
  refine ⟨?_, ?_, ?_, ?_⟩
  · intro store key hk
    unfold read
    rw [hk]
    rfl
  · intro store key hk
    unfold read
    rw [hk]
    rfl
  · intro store key xs hk
    unfold read
    rw [hk]
    rfl
  · intro store key v hk hv
    unfold read
    rw [hk]
    simp [PyVal.isNone, hv]

/-- Witness for C9: a file that parses to an empty dict is read as []. -/
theorem read_none_default_expects_list_witness :
    read (fun _ => FileState.parsed (PyVal.pydict [])) "users" PyVal.pynone =
      PyVal.pylist [] :=
  read_none_default_expects_list.2.2.2
    (fun _ => FileState.parsed (PyVal.pydict [])) "users" (PyVal.pydict []) rfl rfl

/-- C10: on any dict-shaped response mapping (keys occur at most once) the
total score is at most 228, the sum of the per-question maximum weights, and
every single (question, option) pair contributes a weight between 0 and 30. -/
theorem score_upper_bound (r : List (String × String))
    (h : (r.map Prod.fst).Nodup) :
    (calculate_bite_risk_score r).1 ≤ 228 ∧
    (∀ key value : String, 0 ≤ scoreWeight key value ∧ scoreWeight key value ≤ 30) := by
  constructor
  · rw [calc_fst r]
    have h1 : (r.map (fun p => scoreWeight p.1 p.2)).sum ≤
        (r.map (fun p => maxWeight p.1)).sum :=
      List.sum_le_sum (fun p _ => scoreWeight_le_maxWeight p.1 p.2)
    have h2 : (r.map (fun p => maxWeight p.1)).sum =
        ((r.map Prod.fst).map maxWeight).sum := by
      rw [List.map_map]
      rfl
    have h3 := sum_maxWeight_le_228 (r.map Prod.fst) h
    linarith
  · intro key value
    exact ⟨scoreWeight_nonneg key value,
           (scoreWeight_le_maxWeight key value).trans (maxWeight_le_30 key)⟩

/-- Witness for C10 at the end-to-end scenario response set, whose keys are
pairwise distinct. -/
theorem score_upper_bound_witness :
    (calculate_bite_risk_score endToEndResponses).1 ≤ 228 :=
  (score_upper_bound endToEndResponses (by decide)).1

end StraySafe
